import Mathlib

/-!
Shallow embedding of `lib/oven.py` from the kiln-controllerLCD repository.

Conventions of the embedding:
* Python floats are modelled as exact rationals (`ℚ`); wall-clock instants
  (`datetime.datetime`) are modelled as rationals passed explicitly, and a
  duration `(a - b).total_seconds()` becomes plain subtraction.
* A Python computation that can raise an uncaught exception is modelled as an
  `Option`-valued function; `none` means "this call raises" (the exception
  names are recorded in the doc comments).
* Mutable objects become explicit state records; a method that mutates `self`
  returns the updated record.
-/

/-- A profile control point `[time_seconds, temperature]` from the schedule
data (`obj["data"]` entries in `Profile.__init__`). -/
abbrev Point : Type := ℚ × ℚ

/-- Embeds Python's built-in `max(list)`: `none` on the empty list (Python
raises `ValueError` there), otherwise the left fold of `max` over the
elements. -/
def listMax : List ℚ → Option ℚ
  | [] => none
  | x :: xs => some (xs.foldl max x)

/-- State of a `Profile` instance after `__init__`: `self.name = obj["name"]`,
`self.data = sorted(obj["data"])`. -/
structure Profile where
  name : String
  data : List Point

/-- Embeds `Profile.__init__(json_data)` at the level of already-parsed
schedule data (the JSON text layer — `json.loads` plus the `obj["name"]` /
`obj["data"]` key lookups — is outside the model).  The constructor performs
no validation whatsoever on the point list: it only sorts it
(`self.data = sorted(obj["data"])`, a lexicographic sort on the pairs) and
stores it.  No `ProfileFormatError` class exists anywhere in `lib/oven.py`. -/
def Profile.init (name : String) (data : List Point) : Profile :=
  { name := name
    data := data.insertionSort (fun a b => a.1 < b.1 ∨ (a.1 = b.1 ∧ a.2 ≤ b.2)) }

/-- Embeds `Profile.get_duration`: `max([t for (t, x) in self.data])`.
`none` when the data list is empty (Python `max` raises on an empty list). -/
def Profile.get_duration (p : Profile) : Option ℚ :=
  listMax (p.data.map Prod.fst)

/-- Embeds the `for i in range(len(self.data)): if time < self.data[i][0]: …
break` search in `Profile.get_surrounding_points`: the index of the first
point whose time is strictly greater than `time`, `none` if no such point
exists (the loop falls through). -/
def scanIdx (time : ℚ) : List Point → Option Nat
  | [] => none
  | pt :: rest => if time < pt.1 then some 0 else (scanIdx time rest).map (· + 1)

/-- Embeds `Profile.get_surrounding_points(time)`.  The outer `none` models an
uncaught exception (only possible when the data list is empty, via
`get_duration`).  The inner pair components model the Python locals
`prev_point` / `next_point`, which stay `None` when the loop finds no point
beyond `time`.  When the first matching index is `0`, Python's `self.data[i-1]`
is `self.data[-1]`, i.e. the *last* point (negative indexing). -/
def Profile.get_surrounding_points (p : Profile) (time : ℚ) :
    Option (Option Point × Option Point) :=
  match p.get_duration with
  | none => none
  | some d =>
    if time > d then some (none, none)
    else
      match scanIdx time p.data with
      | none => some (none, none)
      | some i =>
        if i = 0 then some (p.data.getLast?, p.data.get? 0)
        else some (p.data.get? (i - 1), p.data.get? i)

/-- Embeds `Profile.is_rising(time)`: `prev_point[1] < next_point[1]` when both
surrounding points exist (points are nonempty lists, hence always truthy in
the Python `if prev_point and next_point:` test), `False` otherwise; `none`
when `get_surrounding_points` raises. -/
def Profile.is_rising (p : Profile) (time : ℚ) : Option Bool :=
  match p.get_surrounding_points time with
  | none => none
  | some (some prev, some next) => some (decide (prev.2 < next.2))
  | some _ => some false

/-- Embeds `Profile.get_target_temperature(time)`.  `none` models an uncaught
exception: a `TypeError` from `next_point[1]` when `get_surrounding_points`
returned a `None` component, or a `ZeroDivisionError` when the two surrounding
points share a time. -/
def Profile.get_target_temperature (p : Profile) (time : ℚ) : Option ℚ :=
  match p.get_duration with
  | none => none
  | some d =>
    if time > d then some 0
    else
      match p.get_surrounding_points time with
      | some (some prev, some next) =>
        if next.1 - prev.1 = 0 then none
        else some (prev.2 + (time - prev.1) * ((next.2 - prev.2) / (next.1 - prev.1)))
      | _ => none

/-- Mutable state of a `PID` instance: the gains (set in `__init__`, never
written afterwards) and the accumulators `lastNow`, `iterm`, `lastErr`. -/
structure PIDState where
  ki : ℚ
  kp : ℚ
  kd : ℚ
  lastNow : ℚ
  iterm : ℚ
  lastErr : ℚ
  deriving DecidableEq

/-- Embeds `PID.__init__(ki, kp, kd)` at instant `now`
(`self.lastNow = datetime.datetime.now()`). -/
def PID.init (ki kp kd now : ℚ) : PIDState :=
  { ki := ki, kp := kp, kd := kd, lastNow := now, iterm := 0, lastErr := 0 }

/-- Embeds `sorted([-1, x, 1])[1]`, the median of `{-1, x, 1}`, i.e. `x`
clamped to `[-1, 1]`. -/
def pidClamp (x : ℚ) : ℚ :=
  max (-1) (min x 1)

/-- Embeds `PID.compute(setpoint, ispoint)` invoked at instant `now`.
`timeDelta = (now - self.lastNow).total_seconds()`.  `none` models the
`ZeroDivisionError` raised by `dErr = (error - self.lastErr) / timeDelta`
when `timeDelta == 0` (the source has no minimum-`dt` floor; in Python the
`iterm` mutation has already happened when the exception fires, but the thread
dies with it, so the post-crash state is not modelled).  On success returns
the clamped output together with the updated state. -/
def PID.compute (st : PIDState) (now setpoint ispoint : ℚ) : Option (ℚ × PIDState) :=
  let timeDelta := now - st.lastNow
  if timeDelta = 0 then none
  else
    let error := setpoint - ispoint
    let iterm := pidClamp (st.iterm + error * timeDelta * st.ki)
    let dErr := (error - st.lastErr) / timeDelta
    let output := pidClamp (st.kp * error + iterm + st.kd * dErr)
    some (output, { st with iterm := iterm, lastErr := error, lastNow := now })

/-- One refresh cycle of `TempSensorReal.run`, processing the body of the
`for x in range(0, maxtries)` loop once per attempt.  The accumulator is the
pair of Python locals `(temp, maxtemp)`: a successful attempt assigns
`temp = self.thermocouple.get()`, a failed attempt (`none`) is caught and
logged, leaving `temp` at its previous value — the last successful read, which
may date from an earlier cycle.  In either case the unguarded
`if temp > maxtemp: maxtemp = temp` then runs.  `lastTemp` is the value `temp`
holds on entry (on the very first cycle with a failing first attempt the
Python local is unbound and the comparison raises `NameError`; the model
assumes some earlier successful read).  `maxtemp` is re-initialised to `0`
each cycle; the cycle ends with `self.temperature = maxtemp`, the second
component. -/
def TempSensorReal.cycle (lastTemp : ℚ) (attempts : List (Option ℚ)) : ℚ × ℚ :=
  attempts.foldl
    (fun acc attempt =>
      let temp := match attempt with
        | some v => v
        | none => acc.1
      (temp, if temp > acc.2 then temp else acc.2))
    (lastTemp, 0)

/-- The two values of `Oven.state`: `STATE_IDLE = "IDLE"`,
`STATE_RUNNING = "RUNNING"`. -/
inductive OvenMode where
  | IDLE : OvenMode
  | RUNNING : OvenMode
  deriving DecidableEq

/-- The configuration values from the global `config` module that the control
loop reads. -/
structure Config where
  thermocouple_offset : ℚ
  emergency_shutoff_temp : ℚ
  pid_ki : ℚ
  pid_kp : ℚ
  pid_kd : ℚ

/-- Mutable state of an `Oven` instance (the fields written by `reset`,
`run_profile` and the control loop). -/
structure OvenState where
  profile : Option Profile
  start_time : ℚ
  startat : ℚ
  runtime : ℚ
  totaltime : ℚ
  target : ℚ
  state : OvenMode
  heat : ℚ
  pid : PIDState

/-- Embeds `Oven.set_heat(value)` (state effect only; the GPIO writes and the
in-call sleeps have no effect on the oven fields): `heat = 1.0` when
`value > 0`, else `heat = 0.0`. -/
def Oven.set_heat (st : OvenState) (value : ℚ) : OvenState :=
  if value > 0 then { st with heat := 1 } else { st with heat := 0 }

/-- Embeds `Oven.reset()` executed at instant `now`: clears the profile and
counters, returns to `IDLE`, forces the heater off (`set_heat(False)`, and
`False > 0` is false in Python), and installs a fresh
`PID(ki=config.pid_ki, kd=config.pid_kd, kp=config.pid_kp)`. -/
def Oven.reset (cfg : Config) (now : ℚ) (st : OvenState) : OvenState :=
  let st := { st with
    profile := none, start_time := 0, runtime := 0, totaltime := 0,
    target := 0, state := OvenMode.IDLE }
  let st := Oven.set_heat st 0
  { st with pid := PID.init cfg.pid_ki cfg.pid_kp cfg.pid_kd now }

/-- Embeds `Oven.run_profile(profile, startat)` at instant `now`.  `none`
models the `ValueError` from `profile.get_duration()` on an empty point list
(in that case `self.profile` has already been assigned but the state never
becomes `RUNNING`; the crashed call is modelled as `none`). -/
def Oven.run_profile (st : OvenState) (p : Profile) (startat now : ℚ) :
    Option OvenState :=
  match p.get_duration with
  | none => none
  | some d =>
    some { st with
      profile := some p, totaltime := d, state := OvenMode.RUNNING,
      start_time := now, startat := startat * 60 }

/-- The runtime value computed by step 1 of the `STATE_RUNNING` branch of
`Oven.run`: `self.runtime += 0.5` in simulation mode, otherwise the wall-clock
elapsed time since `start_time`, shifted by `startat` when that is positive. -/
def Oven.advance_runtime (simulate : Bool) (st : OvenState) (now : ℚ) : ℚ :=
  if simulate then st.runtime + 1 / 2
  else if st.startat > 0 then st.startat + (now - st.start_time)
  else now - st.start_time

/-- One iteration of the `while True` loop of `Oven.run` (a control tick),
executed at instant `now` with the sensor currently publishing
`sensorTemp`.  The `IDLE` branch only sleeps.  The `RUNNING` branch advances
the runtime, queries the profile target, runs the PID, checks the emergency
threshold (resetting immediately if it is met), captures the temperature,
calls `set_heat(pid)`, and finally resets when the runtime has passed the
total time.  `none` models an uncaught exception killing the thread: an
`AttributeError` when `self.profile` is `None`, an exception escaping
`get_target_temperature`, or the `ZeroDivisionError` from `PID.compute`. -/
def Oven.tick (cfg : Config) (simulate : Bool) (st : OvenState)
    (now sensorTemp : ℚ) : Option OvenState :=
  match st.state with
  | OvenMode.IDLE => some st
  | OvenMode.RUNNING =>
    let runtime := Oven.advance_runtime simulate st now
    match st.profile with
    | none => none
    | some p =>
      match p.get_target_temperature runtime with
      | none => none
      | some target =>
        match PID.compute st.pid now target (sensorTemp + cfg.thermocouple_offset) with
        | none => none
        | some (pid, pidSt) =>
          let st := { st with runtime := runtime, target := target, pid := pidSt }
          let st :=
            if sensorTemp + cfg.thermocouple_offset ≥ cfg.emergency_shutoff_temp
            then Oven.reset cfg now st else st
          let st := Oven.set_heat st pid
          let st := if st.runtime > st.totaltime then Oven.reset cfg now st else st
          some st

/-- State of an `Oven` instance right after `__init__` at instant `now`
(`__init__` calls `reset()` on the fresh object; `self.startat` is only
assigned later in `run_profile`, modelled here as `0`). -/
def Oven.initial (cfg : Config) (now : ℚ) : OvenState :=
  { profile := none, start_time := 0, startat := 0, runtime := 0, totaltime := 0,
    target := 0, state := OvenMode.IDLE, heat := 0,
    pid := PID.init cfg.pid_ki cfg.pid_kp cfg.pid_kd now }

/-- The two-point profile `{(0,20),(600,200)}` used as a running example by
the repository's specification. -/
def testProfile : Profile :=
  { name := "test", data := [((0 : ℚ), (20 : ℚ)), (600, 200)] }

/-- A profile whose first point's time is strictly positive. -/
def lateProfile : Profile :=
  { name := "late", data := [((100 : ℚ), (50 : ℚ)), (600, 200)] }

/-- A malformed single-point schedule, passed through `Profile.__init__`. -/
def singlePointProfile : Profile :=
  Profile.init "single" [((0 : ℚ), (20 : ℚ))]

/-- Configuration fixture: no thermocouple offset, emergency shutoff at 250,
PID gains `ki = 1, kp = 1, kd = 1`. -/
def cfgBoundary : Config :=
  { thermocouple_offset := 0, emergency_shutoff_temp := 250,
    pid_ki := 1, pid_kp := 1, pid_kd := 1 }

/-- Oven fixture: `RUNNING` on `testProfile` in simulation mode with
`runtime = 599.5`, so the next tick advances the runtime to exactly
`totaltime = 600`. -/
def ovenAtBoundary : OvenState :=
  { profile := some testProfile, start_time := 0, startat := 0,
    runtime := 1199 / 2, totaltime := 600, target := 0,
    state := OvenMode.RUNNING, heat := 0, pid := PID.init 1 1 1 0 }

/-- Configuration fixture: no offset, emergency shutoff far away at 1000,
gains `ki = 0, kp = 2, kd = 0`. -/
def cfgShutdown : Config :=
  { thermocouple_offset := 0, emergency_shutoff_temp := 1000,
    pid_ki := 0, pid_kp := 2, pid_kd := 0 }

/-- Oven fixture: `RUNNING` on `testProfile` in simulation mode with
`runtime = 650`, already past the 600-second schedule. -/
def ovenPastEnd : OvenState :=
  { profile := some testProfile, start_time := 0, startat := 0,
    runtime := 650, totaltime := 600, target := 0,
    state := OvenMode.RUNNING, heat := 0, pid := PID.init 0 2 0 0 }

/-- The oven state produced by one tick of `ovenPastEnd` at instant `1` with
sensor temperature `25`: the schedule-completion `reset()` state. -/
def ovenAfterShutdown : OvenState :=
  { profile := none, start_time := 0, startat := 0, runtime := 0,
    totaltime := 0, target := 0, state := OvenMode.IDLE, heat := 0,
    pid := PID.init 0 2 0 1 }

/-- Configuration fixture: no offset, emergency shutoff at 250, gains
`ki = 0, kp = 1, kd = 1`. -/
def cfgEmergency : Config :=
  { thermocouple_offset := 0, emergency_shutoff_temp := 250,
    pid_ki := 0, pid_kp := 1, pid_kd := 1 }

/-- Oven fixture: `RUNNING` on `testProfile` in simulation mode at
`runtime = 99.5`, with a PID history (`lastErr = -1000`) that makes the next
derivative term large and positive, so the computed signal saturates at `1`
even though the measured temperature is far above the setpoint. -/
def ovenEmergency : OvenState :=
  { profile := some testProfile, start_time := 0, startat := 0,
    runtime := 199 / 2, totaltime := 600, target := 0,
    state := OvenMode.RUNNING, heat := 0,
    pid := { ki := 0, kp := 1, kd := 1, lastNow := 0, iterm := 0, lastErr := -1000 } }

/-- The PID state after `ovenEmergency`'s tick computes at instant `1` with
measured temperature `300`. -/
def pidAfterEmergency : PIDState :=
  { ki := 0, kp := 1, kd := 1, lastNow := 1, iterm := 0, lastErr := -250 }

/-- The oven state produced by one tick of `ovenEmergency` at instant `1` with
sensor temperature `300`: the emergency `reset()` followed by
`set_heat(pid)` with the positive saturated signal. -/
def ovenAfterEmergency : OvenState :=
  { profile := none, start_time := 0, startat := 0, runtime := 0,
    totaltime := 0, target := 0, state := OvenMode.IDLE, heat := 1,
    pid := PID.init 0 1 1 1 }

/-- A PID fixture: gains `ki = 1/2, kp = 2, kd = 0`, constructed at
instant `0`. -/
def pidFixture : PIDState := PID.init (1 / 2) 2 0 0

/-- The state `pidFixture` reaches after `compute(10, 6)` at instant `1`. -/
def pidFixtureAfter : PIDState :=
  { ki := 1 / 2, kp := 2, kd := 0, lastNow := 1, iterm := 1, lastErr := 4 }

/-! ## General lemmas about the embedded operations -/

lemma le_foldl_max (xs : List ℚ) : ∀ a : ℚ, a ≤ xs.foldl max a := by
  induction xs with
  | nil => intro a; simp
  | cons x xs ih => intro a; exact le_trans (le_max_left a x) (ih (max a x))

lemma mem_le_foldl_max (xs : List ℚ) : ∀ a b : ℚ, b ∈ xs → b ≤ xs.foldl max a := by
  induction xs with
  | nil => intro a b hb; cases hb
  | cons x xs ih =>
    intro a b hb
    rcases List.mem_cons.mp hb with h | h
    · subst h
      exact le_trans (le_max_right a b) (le_foldl_max xs (max a b))
    · exact ih (max a x) b h

lemma listMax_le (l : List ℚ) (m x : ℚ) (hm : listMax l = some m) (hx : x ∈ l) :
    x ≤ m := by
  cases l with
  | nil => cases hx
  | cons y ys =>
    have hm' : ys.foldl max y = m := by simpa [listMax] using hm
    rcases List.mem_cons.mp hx with h | h
    · subst h; rw [← hm']; exact le_foldl_max ys x
    · rw [← hm']; exact mem_le_foldl_max ys y x h

lemma scanIdx_none (t : ℚ) :
    ∀ l : List Point, (∀ pt ∈ l, pt.1 ≤ t) → scanIdx t l = none := by
  intro l
  induction l with
  | nil => intro _; rfl
  | cons p rest ih =>
    intro h
    simp only [scanIdx]
    rw [if_neg (not_lt.mpr (h p (List.mem_cons_self p rest)))]
    rw [ih (fun pt hpt => h pt (List.mem_cons_of_mem p hpt))]
    rfl

lemma scanIdx_segment (t : ℚ) :
    ∀ (l : List Point) (i : ℕ) (a b : Point),
      List.Pairwise (fun x y : Point => x.1 ≤ y.1) l →
      l.get? i = some a → l.get? (i + 1) = some b →
      a.1 ≤ t → t < b.1 → scanIdx t l = some (i + 1) := by
  intro l
  induction l with
  | nil => intro i a b _ ha; simp at ha
  | cons p rest ih =>
    intro i a b hsort ha hb hat htb
    match i with
    | 0 =>
      have hpa : p = a := by simpa using ha
      subst hpa
      simp only [scanIdx]
      rw [if_neg (not_lt.mpr hat)]
      cases rest with
      | nil => simp at hb
      | cons q rest2 =>
        have hqb : q = b := by simpa using hb
        subst hqb
        simp only [scanIdx]
        rw [if_pos htb]
        rfl
    | Nat.succ k =>
      have ha2 : rest.get? k = some a := by simpa using ha
      have hb2 : rest.get? (k + 1) = some b := by simpa using hb
      have hmem : a ∈ rest := List.get?_mem ha2
      have hpair := List.pairwise_cons.mp hsort
      have hpa : p.1 ≤ a.1 := hpair.1 a hmem
      simp only [scanIdx]
      rw [if_neg (not_lt.mpr (le_trans hpa hat))]
      rw [ih k a b hpair.2 ha2 hb2 hat htb]
      rfl

lemma get_duration_of_ne_nil (p : Profile) (h : p.data ≠ []) :
    ∃ d, p.get_duration = some d := by
  cases hdata : p.data with
  | nil => exact absurd hdata h
  | cons y ys =>
    exact ⟨(ys.map Prod.fst).foldl max y.1, by
      simp [Profile.get_duration, hdata, listMax]⟩

lemma get_duration_mem_le (p : Profile) (d : ℚ) (pt : Point)
    (hd : p.get_duration = some d) (hpt : pt ∈ p.data) : pt.1 ≤ d :=
  listMax_le _ _ _ hd (List.mem_map_of_mem Prod.fst hpt)

lemma surrounding_of_segment (p : Profile) (i : ℕ) (a b : Point) (t : ℚ)
    (hsort : List.Pairwise (fun x y : Point => x.1 ≤ y.1) p.data)
    (ha : p.data.get? i = some a) (hb : p.data.get? (i + 1) = some b)
    (hat : a.1 ≤ t) (htb : t < b.1) :
    p.get_surrounding_points t = some (some a, some b) := by
  have hbmem : b ∈ p.data := List.get?_mem hb
  have hne : p.data ≠ [] := by
    intro hnil
    rw [hnil] at hb
    simp at hb
  obtain ⟨d, hd⟩ := get_duration_of_ne_nil p hne
  have hbd : b.1 ≤ d := get_duration_mem_le p d b hd hbmem
  have htd : ¬ t > d := not_lt.mpr (le_of_lt (lt_of_lt_of_le htb hbd))
  unfold Profile.get_surrounding_points
  rw [hd]
  simp only []
  rw [if_neg htd]
  rw [scanIdx_segment t p.data i a b hsort ha hb hat htb]
  have ha2 : p.data[i]? = some a := by simpa using ha
  have hb2 : p.data[i + 1]? = some b := by simpa using hb
  simp [Nat.succ_ne_zero, ha2, hb2]

lemma pidClamp_bounds (x : ℚ) : -1 ≤ pidClamp x ∧ pidClamp x ≤ 1 := by
  unfold pidClamp
  exact ⟨le_max_left _ _, max_le (by norm_num) (min_le_right x 1)⟩

/-! ## Claim theorems -/

/-- C2: for every call to `PID.compute(setpoint, measured)` with elapsed time
`dt = now - lastNow > 0` since the previous call, the controller computes
`error = setpoint - measured`, adds `error * dt * ki` to the integral
accumulator and clamps the accumulator to `[-1, 1]`, computes
`derivative = (error - last_error) / dt`, returns
`kp*error + integral + kd*derivative` clamped to `[-1, 1]`, and persists the
error and the current instant for the next call. -/
theorem pid_compute_correct (st : PIDState) (now setpoint ispoint : ℚ)
    (hdt : 0 < now - st.lastNow) :
    PID.compute st now setpoint ispoint =
      some (pidClamp (st.kp * (setpoint - ispoint) +
              pidClamp (st.iterm + (setpoint - ispoint) * (now - st.lastNow) * st.ki) +
              st.kd * ((setpoint - ispoint - st.lastErr) / (now - st.lastNow))),
            { st with
                iterm := pidClamp (st.iterm + (setpoint - ispoint) * (now - st.lastNow) * st.ki),
                lastErr := setpoint - ispoint,
                lastNow := now }) ∧
    -1 ≤ pidClamp (st.iterm + (setpoint - ispoint) * (now - st.lastNow) * st.ki) ∧
    pidClamp (st.iterm + (setpoint - ispoint) * (now - st.lastNow) * st.ki) ≤ 1 ∧
    -1 ≤ pidClamp (st.kp * (setpoint - ispoint) +
            pidClamp (st.iterm + (setpoint - ispoint) * (now - st.lastNow) * st.ki) +
            st.kd * ((setpoint - ispoint - st.lastErr) / (now - st.lastNow))) ∧
    pidClamp (st.kp * (setpoint - ispoint) +
            pidClamp (st.iterm + (setpoint - ispoint) * (now - st.lastNow) * st.ki) +
            st.kd * ((setpoint - ispoint - st.lastErr) / (now - st.lastNow))) ≤ 1 := by
  refine ⟨?_, (pidClamp_bounds _).1, (pidClamp_bounds _).2,
    (pidClamp_bounds _).1, (pidClamp_bounds _).2⟩
  unfold PID.compute
  rw [if_neg (ne_of_gt hdt)]

/-- Witness for C2: the postcondition evaluated on `pidFixture`
(`ki = 1/2, kp = 2, kd = 0`, zero accumulators, `lastNow = 0`), called at
instant `1` with `setpoint = 10`, `measured = 6`: the accumulator saturates at
`1`, the output saturates at `1`, and `lastErr = 4`, `lastNow = 1` persist. -/
theorem pid_compute_correct_witness :
    (0 : ℚ) < 1 - pidFixture.lastNow ∧
    PID.compute pidFixture 1 10 6 = some (1, pidFixtureAfter) := by
  have h0 : (0 : ℚ) < 1 - pidFixture.lastNow := by norm_num [pidFixture, PID.init]
  refine ⟨h0, ?_⟩
  rw [(pid_compute_correct pidFixture 1 10 6 h0).1]
  norm_num [pidFixture, pidFixtureAfter, PID.init, pidClamp]

/-- C5 (refuted, code bug): `PID.compute` has no minimum-`dt` floor; when the
elapsed time since the previous call is zero, the derivative computation
`(error - last_error) / timeDelta` divides by zero and the call raises a
`ZeroDivisionError` (modelled as `none`) instead of returning a signal. -/
theorem pid_compute_zero_dt_raises :
    PID.compute (PID.init 1 1 1 5) 5 100 0 = none := by
  norm_num [PID.compute, PID.init]

/-- C4 (refuted, code bug): in a `TempSensorReal` refresh cycle a failed read
attempt does not skip the max update — the stale Python local `temp` (the last
successful read, possibly from an earlier cycle) is compared again.  With the
spec's own attempt sequence `[fail, 12.0, fail, 15.0, fail]` and a stale last
read of `20`, the cycle publishes `20`, not the maximum `15` of the cycle's
successful reads; and an all-fail cycle whose stale last read is `12`
publishes `12` (i.e. `max(0, last read)`), regardless of what the previous
cycle published. -/
theorem sensor_cycle_stale_reads :
    TempSensorReal.cycle 20 [none, some 12, none, some 15, none] = (15, 20) ∧
    (20 : ℚ) ≠ 15 ∧
    TempSensorReal.cycle 12 [none, none, none, none, none] = (12, 12) := by
  refine ⟨?_, by norm_num, ?_⟩ <;> norm_num [TempSensorReal.cycle]

/-- C6 counterexample: constructing a `Profile` from a malformed single-point
schedule does not fail — there is no `ProfileFormatError` anywhere in the
source and `__init__` performs no validation; the constructor returns a normal
one-point profile. -/
theorem profile_init_single_point_succeeds :
    singlePointProfile = { name := "single", data := [((0 : ℚ), (20 : ℚ))] } := by
  norm_num [singlePointProfile, Profile.init, List.insertionSort]

/-- C6 (amended): `Profile.__init__` performs no validation, so a single-point
(fewer than two points) schedule constructs successfully, `run_profile`
happily drives the controller into `RUNNING` with it, and the invalid profile
only fails later, when `get_target_temperature` raises (here at `t = 0`,
because no bounding segment exists). -/
theorem profile_no_validation_reaches_running :
    singlePointProfile.data.length = 1 ∧
    (Oven.run_profile (Oven.initial cfgBoundary 0) singlePointProfile 0 0).map
        OvenState.state = some OvenMode.RUNNING ∧
    singlePointProfile.get_target_temperature 0 = none := by
  refine ⟨?_, ?_, ?_⟩
  · norm_num [singlePointProfile, Profile.init, List.insertionSort]
  · norm_num [Oven.run_profile, Oven.initial, singlePointProfile, Profile.init,
      List.insertionSort, Profile.get_duration, listMax]
  · norm_num [singlePointProfile, Profile.init, List.insertionSort,
      Profile.get_target_temperature, Profile.get_surrounding_points,
      Profile.get_duration, listMax, scanIdx]

/-- C3: whenever a bounding segment `(t0,T0),(t1,T1)` of consecutive profile
points with `t0 ≤ t < t1` exists (the profile's data being sorted by time, as
`__init__` guarantees), `get_target_temperature(t)` returns exactly the linear
interpolation `T0 + (t - t0) * (T1-T0)/(t1-t0)`; for every `t` beyond the
profile's duration it returns exactly `0`; and on the profile
`{(0,20),(600,200)}` at `t = 300` it returns exactly `110`. -/
theorem profile_target_interpolation (p : Profile) (d : ℚ) (i : ℕ) (a b : Point)
    (t : ℚ)
    (hsort : List.Pairwise (fun x y : Point => x.1 ≤ y.1) p.data)
    (hd : p.get_duration = some d)
    (ha : p.data.get? i = some a) (hb : p.data.get? (i + 1) = some b)
    (hat : a.1 ≤ t) (htb : t < b.1) :
    p.get_target_temperature t =
      some (a.2 + (t - a.1) * ((b.2 - a.2) / (b.1 - a.1))) ∧
    (∀ u, u > d → p.get_target_temperature u = some 0) ∧
    testProfile.get_target_temperature 300 = some 110 := by
  refine ⟨?_, ?_, ?_⟩
  · have hsurr := surrounding_of_segment p i a b t hsort ha hb hat htb
    have hbd : b.1 ≤ d := get_duration_mem_le p d b hd (List.get?_mem hb)
    have htd : ¬ t > d := not_lt.mpr (le_of_lt (lt_of_lt_of_le htb hbd))
    unfold Profile.get_target_temperature
    rw [hd]
    simp only []
    have hden : b.1 - a.1 ≠ 0 := sub_ne_zero.mpr (ne_of_gt (lt_of_le_of_lt hat htb))
    rw [if_neg htd, hsurr]
    simp [hden]
  · intro u hu
    unfold Profile.get_target_temperature
    rw [hd]
    simp only []
    rw [if_pos hu]
  · norm_num [testProfile, Profile.get_target_temperature,
      Profile.get_surrounding_points, Profile.get_duration, listMax, scanIdx]

/-- Witness for C3: on `testProfile = {(0,20),(600,200)}` with segment
`(0,20),(600,200)` at `t = 300` the target is exactly `110`, and at `t = 700`
(beyond the duration `600`) it is exactly `0`. -/
theorem profile_target_interpolation_witness :
    testProfile.get_target_temperature 300 = some 110 ∧
    testProfile.get_target_temperature 700 = some 0 := by
  have h := profile_target_interpolation testProfile 600 0 (0, 20) (600, 200) 300
    (by norm_num [testProfile, List.pairwise_cons]) rfl rfl rfl
    (by norm_num) (by norm_num)
  exact ⟨h.2.2, h.2.1 700 (by norm_num)⟩

/-- C7: `is_rising(t)` returns `true` iff the bounding segment's temperature
increases (`T1 - T0 > 0`), the bounding segment being exactly the pair that
`get_surrounding_points` yields — the same helper `get_target_temperature`
uses for `t`; and for every `u` at or after the profile's duration (where no
bounding segment exists) it returns `false`. -/
theorem is_rising_segment_correct (p : Profile) (d : ℚ) (i : ℕ) (a b : Point)
    (t : ℚ)
    (hsort : List.Pairwise (fun x y : Point => x.1 ≤ y.1) p.data)
    (hd : p.get_duration = some d)
    (ha : p.data.get? i = some a) (hb : p.data.get? (i + 1) = some b)
    (hat : a.1 ≤ t) (htb : t < b.1) :
    (p.is_rising t = some true ↔ b.2 - a.2 > 0) ∧
    p.get_surrounding_points t = some (some a, some b) ∧
    (∀ u, u ≥ d → p.is_rising u = some false) := by
  have hsurr := surrounding_of_segment p i a b t hsort ha hb hat htb
  refine ⟨?_, hsurr, ?_⟩
  · unfold Profile.is_rising
    rw [hsurr]
    simp [sub_pos]
  · intro u hu
    have hsurr_u : p.get_surrounding_points u = some (none, none) := by
      unfold Profile.get_surrounding_points
      rw [hd]
      simp only []
      by_cases hgt : u > d
      · rw [if_pos hgt]
      · rw [if_neg hgt]
        have hu_eq : u = d := le_antisymm (not_lt.mp hgt) hu
        rw [scanIdx_none u p.data (fun pt hpt => by
          rw [hu_eq]; exact get_duration_mem_le p d pt hd hpt)]
    unfold Profile.is_rising
    rw [hsurr_u]

/-- Witness for C7: on `testProfile` at `t = 300` the bounding segment is
`(0,20),(600,200)`, `is_rising` is `true` (the segment rises by `180`), and at
`t = 600` (the duration) and `t = 700` (past it) `is_rising` is `false`. -/
theorem is_rising_segment_correct_witness :
    testProfile.is_rising 300 = some true ∧
    testProfile.get_surrounding_points 300 = some (some (0, 20), some (600, 200)) ∧
    testProfile.is_rising 600 = some false ∧
    testProfile.is_rising 700 = some false := by
  have h := is_rising_segment_correct testProfile 600 0 (0, 20) (600, 200) 300
    (by norm_num [testProfile, List.pairwise_cons]) rfl rfl rfl
    (by norm_num) (by norm_num)
  exact ⟨h.1.mpr (by norm_num), h.2.1, h.2.2 600 (by norm_num), h.2.2 700 (by norm_num)⟩

/-- C9: for every profile (with nonempty data, so that `get_duration` is
defined, say equal to `d`), calling `get_target_temperature` at exactly
`t = d` does not return `0`: the beyond-duration guard is strict, no point's
time is strictly greater than `d` so `get_surrounding_points` returns
`(None, None)`, and the interpolation step raises (`none`: Python subscripts
`None`); the zero return applies exactly to `t` strictly greater than `d`. -/
theorem target_at_duration_raises (p : Profile) (d : ℚ)
    (hd : p.get_duration = some d) :
    p.get_surrounding_points d = some (none, none) ∧
    p.get_target_temperature d = none ∧
    (∀ t, t > d → p.get_target_temperature t = some 0) := by
  have hsurr : p.get_surrounding_points d = some (none, none) := by
    unfold Profile.get_surrounding_points
    rw [hd]
    simp only []
    rw [if_neg (lt_irrefl d)]
    rw [scanIdx_none d p.data (fun pt hpt => get_duration_mem_le p d pt hd hpt)]
  refine ⟨hsurr, ?_, ?_⟩
  · unfold Profile.get_target_temperature
    rw [hd]
    simp only []
    rw [if_neg (lt_irrefl d), hsurr]
  · intro t ht
    unfold Profile.get_target_temperature
    rw [hd]
    simp only []
    rw [if_pos ht]

/-- Witness for C9: on `testProfile` (duration `600`), the target query at
exactly `600` raises, while at `601` it returns `0`. -/
theorem target_at_duration_raises_witness :
    testProfile.get_target_temperature 600 = none ∧
    testProfile.get_target_temperature 601 = some 0 := by
  have h := target_at_duration_raises testProfile 600 rfl
  exact ⟨h.2.1, h.2.2 601 (by norm_num)⟩

/-- C10: for every profile whose first point's time is strictly positive and
every `t` with `0 ≤ t` strictly before that first time, the loop matches at
index `0` and Python's `data[i-1]` resolves (by negative indexing) to the
*last* point, so `get_surrounding_points` returns `(last point, first point)`
and `get_target_temperature` interpolates along the segment from the last
point to the first point instead of clamping to the first point's
temperature. -/
theorem surrounding_before_first_point (p : Profile) (a z : Point) (t : ℚ)
    (hsort : List.Pairwise (fun x y : Point => x.1 ≤ y.1) p.data)
    (hhead : p.data.head? = some a) (hlast : p.data.getLast? = some z)
    (h0 : 0 ≤ t) (hta : t < a.1) (hne : a.1 - z.1 ≠ 0) :
    p.get_surrounding_points t = some (some z, some a) ∧
    p.get_target_temperature t =
      some (z.2 + (t - z.1) * ((a.2 - z.2) / (a.1 - z.1))) := by
  obtain ⟨rest, hdata⟩ : ∃ rest, p.data = a :: rest := by
    cases hd2 : p.data with
    | nil => rw [hd2] at hhead; simp at hhead
    | cons y ys =>
      refine ⟨ys, ?_⟩
      rw [hd2] at hhead
      simp only [List.head?_cons, Option.some.injEq] at hhead
      rw [hhead]
  have hamem : a ∈ p.data := by rw [hdata]; exact List.mem_cons_self a rest
  have hne_nil : p.data ≠ [] := by rw [hdata]; simp
  obtain ⟨d, hd⟩ := get_duration_of_ne_nil p hne_nil
  have had : a.1 ≤ d := get_duration_mem_le p d a hd hamem
  have htd : ¬ t > d := not_lt.mpr (le_of_lt (lt_of_lt_of_le hta had))
  have hscan : scanIdx t p.data = some 0 := by
    rw [hdata]
    simp only [scanIdx]
    rw [if_pos hta]
  have hget0 : p.data[0]? = some a := by rw [hdata]; simp
  have hsurr : p.get_surrounding_points t = some (some z, some a) := by
    unfold Profile.get_surrounding_points
    rw [hd]
    simp only []
    rw [if_neg htd, hscan]
    simp [hlast, hget0]
  refine ⟨hsurr, ?_⟩
  unfold Profile.get_target_temperature
  rw [hd]
  simp only []
  rw [if_neg htd, hsurr]
  simp [hne]

/-- Witness for C10: on `lateProfile = {(100,50),(600,200)}` at `t = 40`
(before the first point's time `100`), the surrounding points are the last
point `(600,200)` followed by the first point `(100,50)`, and the target is
the wrap-around interpolation value `32` — not the first point's temperature
`50`. -/
theorem surrounding_before_first_point_witness :
    lateProfile.get_surrounding_points 40 = some (some (600, 200), some (100, 50)) ∧
    lateProfile.get_target_temperature 40 = some 32 := by
  have h := surrounding_before_first_point lateProfile (100, 50) (600, 200) 40
    (by norm_num [lateProfile, List.pairwise_cons]) rfl rfl
    (by norm_num) (by norm_num) (by norm_num)
  refine ⟨h.1, ?_⟩
  rw [h.2]
  norm_num

lemma set_heat_state (st : OvenState) (v : ℚ) :
    (Oven.set_heat st v).state = st.state := by
  unfold Oven.set_heat; split <;> rfl

lemma set_heat_runtime (st : OvenState) (v : ℚ) :
    (Oven.set_heat st v).runtime = st.runtime := by
  unfold Oven.set_heat; split <;> rfl

lemma set_heat_totaltime (st : OvenState) (v : ℚ) :
    (Oven.set_heat st v).totaltime = st.totaltime := by
  unfold Oven.set_heat; split <;> rfl

lemma set_heat_heat_pos (st : OvenState) (v : ℚ) (h : 0 < v) :
    (Oven.set_heat st v).heat = 1 := by
  unfold Oven.set_heat; rw [if_pos h]

lemma reset_state (cfg : Config) (now : ℚ) (st : OvenState) :
    (Oven.reset cfg now st).state = OvenMode.IDLE := by
  norm_num [Oven.reset, Oven.set_heat]

lemma reset_runtime (cfg : Config) (now : ℚ) (st : OvenState) :
    (Oven.reset cfg now st).runtime = 0 := by
  norm_num [Oven.reset, Oven.set_heat]

lemma reset_totaltime (cfg : Config) (now : ℚ) (st : OvenState) :
    (Oven.reset cfg now st).totaltime = 0 := by
  norm_num [Oven.reset, Oven.set_heat]

/-- C1 (amended): for every control tick executed while the oven is `RUNNING`
that completes without an uncaught exception, if the advanced runtime exceeds
`totaltime`, or the measured temperature plus the thermocouple offset reaches
the emergency-shutoff threshold, then by the end of the tick the controller
has transitioned (via `reset`) to `IDLE`, regardless of profile position.
(The completion proviso is forced: at runtime exactly equal to `totaltime`
the target lookup raises and the tick never finishes, see the
counterexample.) -/
theorem oven_tick_auto_idle (cfg : Config) (simulate : Bool) (st : OvenState)
    (now temp : ℚ) (st2 : OvenState)
    (hrun : st.state = OvenMode.RUNNING)
    (htick : Oven.tick cfg simulate st now temp = some st2)
    (hcond : Oven.advance_runtime simulate st now > st.totaltime ∨
             temp + cfg.thermocouple_offset ≥ cfg.emergency_shutoff_temp) :
    st2.state = OvenMode.IDLE := by
  unfold Oven.tick at htick
  rw [hrun] at htick
  cases hp : st.profile with
  | none => rw [hp] at htick; simp at htick
  | some p =>
    rw [hp] at htick
    simp only [] at htick
    cases ht : p.get_target_temperature (Oven.advance_runtime simulate st now) with
    | none => rw [ht] at htick; simp at htick
    | some target =>
      rw [ht] at htick
      simp only [] at htick
      cases hc : PID.compute st.pid now target (temp + cfg.thermocouple_offset) with
      | none => rw [hc] at htick; simp at htick
      | some pr =>
        obtain ⟨out, pidSt⟩ := pr
        rw [hc] at htick
        simp only [Option.some.injEq] at htick
        subst htick
        by_cases hemer : temp + cfg.thermocouple_offset ≥ cfg.emergency_shutoff_temp
        · rw [if_pos hemer]
          split
          · exact reset_state cfg now _
          · rw [set_heat_state]
            exact reset_state cfg now _
        · rw [if_neg hemer]
          have hrt : Oven.advance_runtime simulate st now > st.totaltime :=
            hcond.resolve_right hemer
          split
          · exact reset_state cfg now _
          · next hlt =>
              exact absurd (by rw [set_heat_runtime, set_heat_totaltime]; exact hrt) hlt

/-- Witness for C1 (amended): one simulated tick of `ovenPastEnd`
(`runtime = 650`, past the 600-second schedule, cool sensor reading `25`)
completes, and ends `IDLE` in the schedule-completion reset state. -/
theorem oven_tick_auto_idle_witness :
    Oven.tick cfgShutdown true ovenPastEnd 1 25 = some ovenAfterShutdown ∧
    ovenAfterShutdown.state = OvenMode.IDLE := by
  have htick : Oven.tick cfgShutdown true ovenPastEnd 1 25 = some ovenAfterShutdown := by
    norm_num [Oven.tick, ovenPastEnd, cfgShutdown, Oven.advance_runtime, testProfile,
      Profile.get_target_temperature, Profile.get_surrounding_points,
      Profile.get_duration, listMax, scanIdx, PID.compute, PID.init, pidClamp,
      Oven.reset, Oven.set_heat, ovenAfterShutdown]
  exact ⟨htick, oven_tick_auto_idle cfgShutdown true ovenPastEnd 1 25 ovenAfterShutdown
    rfl htick (Or.inl (by norm_num [Oven.advance_runtime, ovenPastEnd]))⟩

/-- C1 counterexample: with the oven `RUNNING` on `testProfile` at
`runtime = 599.5` in simulation mode and the sensor reading `300` (far above
the emergency threshold `250`), the next tick advances the runtime to exactly
`totaltime = 600`, where `get_target_temperature` raises *before* the
emergency check is reached: the tick dies (`none`) and no transition to
`IDLE` happens, contradicting "within one tick ... regardless of the current
profile position". -/
theorem oven_tick_emergency_boundary_crash :
    ovenAtBoundary.state = OvenMode.RUNNING ∧
    (300 : ℚ) + cfgBoundary.thermocouple_offset ≥ cfgBoundary.emergency_shutoff_temp ∧
    Oven.tick cfgBoundary true ovenAtBoundary 1 300 = none := by
  refine ⟨rfl, by norm_num [cfgBoundary], ?_⟩
  norm_num [Oven.tick, ovenAtBoundary, cfgBoundary, Oven.advance_runtime,
    testProfile, Profile.get_target_temperature, Profile.get_surrounding_points,
    Profile.get_duration, listMax, scanIdx, PID.init]

/-- C8: in every completed control tick in which the emergency check fires
while the computed pid signal is positive, the `reset()` is followed within
the same tick by `set_heat(pid)` with that positive signal, so the tick ends
with `state = IDLE` and `heat = 1.0`: the heater is driven on after the
emergency transition to `IDLE`. -/
theorem oven_tick_emergency_heat_on (cfg : Config) (simulate : Bool)
    (st : OvenState) (now temp : ℚ) (p : Profile) (target out : ℚ)
    (pidSt : PIDState) (st2 : OvenState)
    (hrun : st.state = OvenMode.RUNNING)
    (hp : st.profile = some p)
    (ht : p.get_target_temperature (Oven.advance_runtime simulate st now) = some target)
    (hc : PID.compute st.pid now target (temp + cfg.thermocouple_offset) = some (out, pidSt))
    (hout : 0 < out)
    (hemer : temp + cfg.thermocouple_offset ≥ cfg.emergency_shutoff_temp)
    (htick : Oven.tick cfg simulate st now temp = some st2) :
    st2.state = OvenMode.IDLE ∧ st2.heat = 1 := by
  unfold Oven.tick at htick
  rw [hrun, hp] at htick
  simp only [] at htick
  rw [ht] at htick
  simp only [] at htick
  rw [hc] at htick
  simp only [Option.some.injEq] at htick
  subst htick
  rw [if_pos hemer]
  split
  · next hgt =>
      rw [set_heat_runtime, set_heat_totaltime, reset_runtime, reset_totaltime] at hgt
      exact absurd hgt (lt_irrefl 0)
  · refine ⟨?_, set_heat_heat_pos _ out hout⟩
    rw [set_heat_state]
    exact reset_state cfg now _

/-- Witness for C8: one simulated tick of `ovenEmergency` (sensor `300`, above
the threshold `250`; PID history making the derivative term dominate so the
signal saturates at `1`) completes in the state with `state = IDLE` and
`heat = 1`. -/
theorem oven_tick_emergency_heat_on_witness :
    Oven.tick cfgEmergency true ovenEmergency 1 300 = some ovenAfterEmergency ∧
    ovenAfterEmergency.state = OvenMode.IDLE ∧ ovenAfterEmergency.heat = 1 := by
  have htick : Oven.tick cfgEmergency true ovenEmergency 1 300 = some ovenAfterEmergency := by
    norm_num [Oven.tick, ovenEmergency, cfgEmergency, Oven.advance_runtime, testProfile,
      Profile.get_target_temperature, Profile.get_surrounding_points,
      Profile.get_duration, listMax, scanIdx, PID.compute, PID.init, pidClamp,
      Oven.reset, Oven.set_heat, ovenAfterEmergency]
  refine ⟨htick, ?_⟩
  exact oven_tick_emergency_heat_on cfgEmergency true ovenEmergency 1 300 testProfile
    50 1 pidAfterEmergency ovenAfterEmergency rfl rfl
    (by norm_num [ovenEmergency, Oven.advance_runtime, testProfile,
      Profile.get_target_temperature, Profile.get_surrounding_points,
      Profile.get_duration, listMax, scanIdx])
    (by norm_num [ovenEmergency, cfgEmergency, PID.compute, pidClamp, pidAfterEmergency])
    (by norm_num) (by norm_num [cfgEmergency]) htick
